import Mathlib

/-!
# Verification of the HMCTS case/task management frontend

Shallow embedding of the security middleware (sanitizer, request
classifier), the auth middleware (guards, `clearAuth`), the
`AuthenticationService` error handling, and the `/auth` route handlers,
with theorems settling the frozen claims about them.

Strings from the JavaScript runtime are modelled as `List Char` where the
character-level scanning of the regex replacements matters, and as `String`
elsewhere.  JavaScript truthiness of optional strings (absent or empty
string is falsy) is modelled explicitly.
-/

namespace Hmcts

/-! ## Sanitizer: `sanitizeInput` from the security middleware

The source is
`input.replace(/[<>]/g, '').replace(/javascript:/gi, '').replace(/on\w+=/gi, '').trim()`.
Each `replace` with a global regex is a single left-to-right scan of the
string removing the non-overlapping matches; the passes run in the order
written.  The scans are modelled with an explicit fuel equal to the string
length so that every definition stays kernel-computable.
-/

/-- Case-insensitive character equality, as the `i` regex flag gives. -/
def charEqCI (c d : Char) : Bool :=
  c.toLower == d.toLower

/-- Does `s` start with the pattern `pat`, comparing case-insensitively? -/
def startsWithCI : List Char → List Char → Bool
  | _, [] => true
  | [], _ :: _ => false
  | c :: cs, p :: ps => charEqCI c p && startsWithCI cs ps

/-- Does `s` contain `pat` (case-insensitively) as a contiguous substring? -/
def containsCI : List Char → List Char → Bool
  | [], pat => pat.isEmpty
  | c :: cs, pat => startsWithCI (c :: cs) pat || containsCI cs pat

/-- First pass of `sanitizeInput`: `replace(/[<>]/g, '')` deletes every
angle bracket. -/
def removeAngles (s : List Char) : List Char :=
  s.filter (fun c => !(c == '<' || c == '>'))

/-- One global case-insensitive replace of `pat` by the empty string:
scan left to right, delete each non-overlapping match, resume after it.
`fuel` bounds the recursion; with `fuel ≥ s.length` it never runs out. -/
def removeCIAux (pat : List Char) : Nat → List Char → List Char
  | 0, s => s
  | _ + 1, [] => []
  | n + 1, c :: cs =>
    if startsWithCI (c :: cs) pat then
      removeCIAux pat n (cs.drop (pat.length - 1))
    else
      c :: removeCIAux pat n cs

/-- `replace(<pat regex>/gi, '')` on `s`. -/
def removeCI (pat s : List Char) : List Char :=
  removeCIAux pat s.length s

/-- The deleted protocol pattern of the second pass. -/
def jsPat : List Char := "javascript:".data

/-- JavaScript regex `\w`: ASCII letters, digits, underscore. -/
def isWordChar (c : Char) : Bool :=
  c.isAlpha || c.isDigit || c == '_'

/-- Length of the match of `/on\w+=/i` anchored at the head of `s`, if any:
`on` (case-insensitively), then a nonempty maximal run of word characters,
then `=`.  Only the maximal run can be followed by `=` because every
shorter candidate ends before another word character. -/
def onMatchLen (s : List Char) : Option Nat :=
  match s with
  | o :: m :: rest =>
    if charEqCI o 'o' && charEqCI m 'n' then
      let run := rest.takeWhile isWordChar
      if run.length == 0 then none
      else
        match rest.drop run.length with
        | c :: _ => if c == '=' then some (run.length + 3) else none
        | [] => none
    else none
  | _ => none

/-- Third pass of `sanitizeInput`: `replace(/on\w+=/gi, '')`, a single
left-to-right scan deleting each non-overlapping match. -/
def removeOnAux : Nat → List Char → List Char
  | 0, s => s
  | _ + 1, [] => []
  | n + 1, c :: cs =>
    match onMatchLen (c :: cs) with
    | some k => removeOnAux n (cs.drop (k - 1))
    | none => c :: removeOnAux n cs

/-- The event-handler-prefix removal pass. -/
def removeOn (s : List Char) : List Char :=
  removeOnAux s.length s

/-- Leading-whitespace trim, as in `String.prototype.trim`. -/
def trimLeftChars (s : List Char) : List Char :=
  s.dropWhile Char.isWhitespace

/-- Trailing-whitespace trim. -/
def trimRightChars (s : List Char) : List Char :=
  (s.reverse.dropWhile Char.isWhitespace).reverse

/-- Both-ends trim: the final `.trim()` of `sanitizeInput`. -/
def trimChars (s : List Char) : List Char :=
  trimRightChars (trimLeftChars s)

/-- Character-level body of `sanitizeInput`: the four passes in source
order. -/
def sanitizeChars (s : List Char) : List Char :=
  trimChars (removeOn (removeCI jsPat (removeAngles s)))

/-- `sanitizeInput` from `middleware/security.ts`. -/
def sanitizeInput (s : String) : String :=
  ⟨sanitizeChars s.data⟩

/-- Does the string contain an angle bracket (a character the first pass
deletes)? -/
def hasAngle (s : List Char) : Bool :=
  s.any (fun c => c == '<' || c == '>')

/-- Does the string contain a match of `/on\w+=/i` anywhere? -/
def hasOnMatch : List Char → Bool
  | [] => false
  | c :: cs => (onMatchLen (c :: cs)).isSome || hasOnMatch cs

/-! ## Request classifier: `detectSuspiciousActivity`

The middleware builds
`checkString = req.path + JSON.stringify(req.query) + JSON.stringify(req.body)`
and tests three case-insensitive regexes in order, blocking on the first
match and reporting that pattern's source text.  Each regex is an
alternation of literal substrings, so matching is substring containment.
-/

/-- Alternatives of the first pattern `/(\.\.|\/etc\/|\/bin\/)/i`. -/
def travAlts : List (List Char) :=
  ["..".data, "/etc/".data, "/bin/".data]

/-- Alternatives of the second pattern
`/(union|select|insert|update|delete|drop|exec|script)/i`. -/
def sqlAlts : List (List Char) :=
  ["union".data, "select".data, "insert".data, "update".data,
   "delete".data, "drop".data, "exec".data, "script".data]

/-- Alternatives of the third pattern
`/(<script|javascript:|onerror=|onload=)/i`. -/
def xssAlts : List (List Char) :=
  ["<script".data, "javascript:".data, "onerror=".data, "onload=".data]

/-- Does the string match an alternation of literal substrings? -/
def matchesAny (s : List Char) (alts : List (List Char)) : Bool :=
  alts.any (fun p => containsCI s p)

/-- Which of the three suspicious patterns matched (its audit identity). -/
inductive SuspicionPattern where
  | traversal
  | sql
  | xss
deriving DecidableEq, Repr

/-- `detectSuspiciousActivity`, abstracted from the response object: given
the path and the JSON serializations of query and body, returns the first
matching pattern (the request is blocked with 403 and the pattern source is
logged), or `none` (the request passes to `next()`). -/
def classifyRequest (path queryJson bodyJson : List Char) : Option SuspicionPattern :=
  let checkString := path ++ queryJson ++ bodyJson
  if matchesAny checkString travAlts then some .traversal
  else if matchesAny checkString sqlAlts then some .sql
  else if matchesAny checkString xssAlts then some .xss
  else none

/-- JSON string escaping for the characters occurring in the claims'
inputs: `JSON.stringify` escapes a quote or backslash with a backslash
(control characters, absent from the inputs, are not modelled). -/
def jsonEscape (s : List Char) : List Char :=
  s.flatMap (fun c =>
    if c == Char.ofNat 34 || c == Char.ofNat 92 then [Char.ofNat 92, c] else [c])

/-- `JSON.stringify` of a flat object with string values, in insertion
order: `{"k":"v",...}`. -/
def jsonStringifyObj (fields : List (List Char × List Char)) : List Char :=
  let quote : List Char := [Char.ofNat 34]
  let inner := List.intercalate [','] (fields.map (fun kv =>
    quote ++ jsonEscape kv.1 ++ quote ++ [':'] ++ quote ++ jsonEscape kv.2 ++ quote))
  [Char.ofNat 123] ++ inner ++ [Char.ofNat 125]

/-- `JSON.stringify({})`. -/
def emptyObjJson : List Char := jsonStringifyObj []

/-- The SQL-injection body of the claim:
`{username: "admin'; DROP TABLE users; --"}` serialized. -/
def sqlInjBodyJson : List Char :=
  jsonStringifyObj
    [("username".data,
      "admin".data ++ [Char.ofNat 39] ++ "; DROP TABLE users; --".data)]

/-- The XSS query of the claim: `{q: "<script>alert(1)</script>"}`
serialized. -/
def xssQueryJson : List Char :=
  jsonStringifyObj [("q".data, "<script>alert(1)</script>".data)]

/-- The benign body of the claim: `{title: "Buy milk"}` serialized. -/
def milkBodyJson : List Char :=
  jsonStringifyObj [("title".data, "Buy milk".data)]

/-! ## Auth middleware: `requireAuth`, `redirectIfAuthenticated`, `clearAuth`

`req.session` is a dynamic object; for the middleware, which reads and
deletes individual keys, it is modelled as an association list from key to
value (first binding wins, as property lookup has one binding per key).
An absent session (`req.session === undefined`) is `none`.  JavaScript
truthiness of the looked-up `token` — absent key and empty string are
falsy — is modelled by `optTruthy`.
-/

/-- Truthiness of `session?.token`: a string is truthy iff nonempty;
`undefined` is falsy. -/
def optTruthy (o : Option String) : Bool :=
  match o with
  | some s => !(s == "")
  | none => false

/-- Truthiness of an optional boolean field read off a runtime object:
`undefined` and `false` are falsy. -/
def optTruthyB (o : Option Bool) : Bool :=
  o.getD false

/-- What a middleware does with the request: pass it on or redirect. -/
inductive MWStep where
  | next
  | redirect (target : String)
deriving DecidableEq, Repr

/-- `requireAuth` from `middleware/auth.ts`: redirect to `/auth/login`
when `req.session?.token` is falsy, else `next()`. -/
def requireAuth (sess : Option (List (String × String))) : MWStep :=
  let token := sess.bind (fun m => m.lookup "token")
  if optTruthy token then .next else .redirect "/auth/login"

/-- `redirectIfAuthenticated` from `middleware/auth.ts`: redirect to
`/tasks` when `req.session?.token` is truthy, else `next()`. -/
def redirectIfAuthenticated (sess : Option (List (String × String))) : MWStep :=
  let token := sess.bind (fun m => m.lookup "token")
  if optTruthy token then .redirect "/tasks" else .next

/-- `clearAuth` from `middleware/auth.ts`: `delete session.token` and
`delete session.email` (value type generic — session values are
heterogeneous). -/
def clearAuth {V : Type} (m : List (String × V)) : List (String × V) :=
  m.filter (fun kv => !(kv.1 == "token" || kv.1 == "email"))

/-! ## `AuthenticationService` and its error classification

`handleError` turns an axios failure into one of three thrown values:
an `AuthenticationError` built from the error response, a fresh
`new Error('Network error: ...')` when a request was made but no response
arrived, or the original error rethrown unchanged.  The service operations
first reject locally on an empty/whitespace required argument, before any
network call.
-/

/-- The JavaScript `x || y` fallback chain on optional strings: an absent
or empty string falls through to the default. -/
def jsOrOpt (o : Option String) (d : String) : String :=
  match o with
  | some s => if s == "" then d else s
  | none => d

/-- The JavaScript `x || y` fallback on a present string. -/
def jsOrStr (s d : String) : String :=
  if s == "" then d else s

/-- The whitespace set JavaScript string trimming removes: the WhiteSpace
production (TAB, VT, FF, SP, NBSP, BOM and the Unicode space-separator
category: OGHAM SPACE MARK, EN QUAD through HAIR SPACE, NARROW NO-BREAK
SPACE, MEDIUM MATHEMATICAL SPACE, IDEOGRAPHIC SPACE) together with the
LineTerminator production (LF, CR, LS, PS). -/
def jsWhitespace (c : Char) : Bool :=
  c.toNat == 0x9 || c.toNat == 0xA || c.toNat == 0xB || c.toNat == 0xC ||
  c.toNat == 0xD || c.toNat == 0x20 || c.toNat == 0xA0 || c.toNat == 0x1680 ||
  (0x2000 ≤ c.toNat && c.toNat ≤ 0x200A) || c.toNat == 0x2028 ||
  c.toNat == 0x2029 || c.toNat == 0x202F || c.toNat == 0x205F ||
  c.toNat == 0x3000 || c.toNat == 0xFEFF

/-- The guard `!arg || arg.trim() === ''` of the service operations:
`arg.trim()` is the empty string exactly when every character of `arg` is
JavaScript whitespace (which also covers the falsy empty string). -/
def blankArg (s : String) : Bool :=
  s == "" || s.data.all jsWhitespace

/-- The error-relevant shape of an axios error: `response` (present iff
the server answered with an error status, carrying the parsed body's
`message`/`error` fields, the status, and the `retry-after` header if
any), `request` (present iff a request went out), and the error
`message`. -/
structure AxiosLikeError where
  responseStatus : Option Nat
  dataMessage : Option String
  dataError : Option String
  retryAfter : Option String
  requestMade : Bool
  message : String
deriving DecidableEq, Repr

/-- A thrown JavaScript value as the auth service produces them:
`AuthenticationError` (with `statusCode` and optional `retryAfter`), a
plain `new Error(message)` (local validation or the network-unreachable
error — no status code), or the original error rethrown unchanged. -/
inductive Thrown where
  | authError (message : String) (statusCode : Nat) (retryAfter : Option String)
  | plainError (message : String)
  | original (e : AxiosLikeError)
deriving DecidableEq, Repr

/-- `error.statusCode` as the route handlers read it: only an
`AuthenticationError` carries one; on any other error it is `undefined`. -/
def Thrown.statusCode : Thrown → Option Nat
  | .authError _ c _ => some c
  | .plainError _ => none
  | .original _ => none

/-- `error.message` of a thrown value. -/
def Thrown.errMessage : Thrown → String
  | .authError m _ _ => m
  | .plainError m => m
  | .original e => e.message

/-- `AuthenticationService.handleError`: classify an axios failure.
`if (error.response)` → `AuthenticationError(data?.message || data?.error
|| 'An error occurred', status, headers?.['retry-after'])`;
`else if (error.request)` → `new Error('Network error: Unable to reach
authentication server')`; else rethrow the original error. -/
def handleError (e : AxiosLikeError) : Thrown :=
  match e.responseStatus with
  | some status =>
    .authError (jsOrOpt e.dataMessage (jsOrOpt e.dataError "An error occurred"))
      status e.retryAfter
  | none =>
    if e.requestMade then
      .plainError "Network error: Unable to reach authentication server"
    else
      .original e

/-- Outcome of the one network call an operation makes: the promise
resolves with the parsed body, or rejects with an axios error. -/
inductive NetOutcome (α : Type) where
  | resolved (v : α)
  | rejected (e : AxiosLikeError)

/-- What an operation of the service does, paired with whether the network
call was made: `Except.ok` is a resolved promise, `Except.error` a thrown
value. -/
def ServiceRun (α : Type) : Type := Bool × Except Thrown α

/-- Parsed body of a successful `validate-email` backend response, as
declared (`ValidateEmailResponse`), together with the fields the route
handler actually reads (`success`, `emailValidated`) — absent on this
response shape, hence `Option Bool` resolved from the runtime object. -/
structure ValidateEmailResult where
  valid : Option Bool
  message : Option String
  success : Option Bool
  emailValidated : Option Bool
deriving DecidableEq, Repr

/-- Parsed body of a successful `authenticate` backend response
(`AuthenticateResponse`). -/
structure AuthenticateResult where
  token : Option String
  message : Option String
deriving DecidableEq, Repr

/-- Parsed body of a successful `logout` backend response. -/
structure LogoutResult where
  message : Option String
deriving DecidableEq, Repr

/-- `AuthenticationService.validateEmail`: reject locally (no network
call) on a missing/empty/whitespace email, otherwise make the call and
funnel any rejection through `handleError`. -/
def svcValidateEmail (email : String) (net : NetOutcome ValidateEmailResult) :
    ServiceRun ValidateEmailResult :=
  if blankArg email then
    (false, .error (.plainError "Email is required"))
  else
    match net with
    | .resolved v => (true, .ok v)
    | .rejected e => (true, .error (handleError e))

/-- `AuthenticationService.authenticate`: email then password checked
locally, then the call. -/
def svcAuthenticate (email password : String) (net : NetOutcome AuthenticateResult) :
    ServiceRun AuthenticateResult :=
  if blankArg email then
    (false, .error (.plainError "Email is required"))
  else if blankArg password then
    (false, .error (.plainError "Password is required"))
  else
    match net with
    | .resolved v => (true, .ok v)
    | .rejected e => (true, .error (handleError e))

/-- `AuthenticationService.logout`: token checked locally, then the call. -/
def svcLogout (token : String) (net : NetOutcome LogoutResult) :
    ServiceRun LogoutResult :=
  if blankArg token then
    (false, .error (.plainError "Token is required"))
  else
    match net with
    | .resolved v => (true, .ok v)
    | .rejected e => (true, .error (handleError e))

/-! ## `/auth` route handlers

For the route handlers the session is viewed through the typed
`SessionData` declaration (`token?`, `email?`, `tempEmail?`, `errors?`),
each field `Option`-valued for an absent key.  A handler's effect is the
session after the request plus the redirect target it responded with.
The `redirectIfAuthenticated` guard that express runs before the handler
is part of each route model.  The service call sits behind an
`Except Thrown` argument: `.ok` is the awaited result, `.error` the value
the `await` threw (which the handler catches).
-/

/-- One GOV.UK error-summary entry placed in `session.errors`. -/
structure ErrItem where
  text : String
  href : String
deriving DecidableEq, Repr

/-- The typed session of `SessionData`. -/
structure Session where
  token : Option String
  email : Option String
  tempEmail : Option String
  errors : Option (List ErrItem)
deriving DecidableEq, Repr

/-- The session of a fresh anonymous visitor. -/
def emptySession : Session :=
  { token := none, email := none, tempEmail := none, errors := none }

/-- Truthiness of the session's `token` field, as the guard tests it. -/
def Session.tokenTruthy (s : Session) : Bool :=
  optTruthy s.token

/-- What a route handler did: the session it left behind and where it
redirected. -/
structure RouteOutcome where
  session : Session
  redirect : String
deriving DecidableEq, Repr

/-- The session after `req.session!.errors = [{text, href}]`: one pending
error entry anchored at `href`, the rest of the session untouched. -/
def Session.withError (sess : Session) (text href : String) : Session :=
  { sess with errors := some [{ text := text, href := href }] }

/-- `POST /auth/validate-email` (guard included).  The handler branches on
`result.success && result.emailValidated` — fields read off the runtime
response object — sets `tempEmail` and redirects to `/auth/password` when
both are truthy, else attaches `result.message || 'Invalid email address'`
to `#email` and redirects to `/auth/login`.  The catch branch maps a 429
to the rate-limit text, anchors at `#email`, and redirects to
`/auth/login`. -/
def postValidateEmail (sess : Session) (email : String)
    (call : Except Thrown ValidateEmailResult) : RouteOutcome :=
  if sess.tokenTruthy then
    { session := sess, redirect := "/tasks" }
  else
    match call with
    | .ok result =>
      if optTruthyB result.success && optTruthyB result.emailValidated then
        { session := { sess with tempEmail := some email },
          redirect := "/auth/password" }
      else
        let msg := jsOrOpt result.message "Invalid email address"
        { session := { sess with errors := some [{ text := msg, href := "#email" }] },
          redirect := "/auth/login" }
    | .error err =>
      let errorMessage :=
        if err.statusCode == some 429 then
          "Too many attempts. Please try again later."
        else
          jsOrStr err.errMessage "An error occurred. Please try again."
      { session := { sess with errors := some [{ text := errorMessage, href := "#email" }] },
        redirect := "/auth/login" }

/-- `POST /auth/authenticate` (guard included).  Without a truthy
`tempEmail` the handler redirects to `/auth/login`.  On a resolved call it
stores the token, copies the validated email, deletes `tempEmail`, and
redirects to `/tasks`.  In the catch branch, a 429 maps to the rate-limit
text, a 401 to the invalid-password text, anything else to
`error.message || 'An error occurred. Please try again.'`, anchored at
`#password` with a redirect back to `/auth/password`. -/
def postAuthenticate (sess : Session)
    (call : Except Thrown AuthenticateResult) : RouteOutcome :=
  if sess.tokenTruthy then
    { session := sess, redirect := "/tasks" }
  else
    match sess.tempEmail with
    | none => { session := sess, redirect := "/auth/login" }
    | some email =>
      if email == "" then
        { session := sess, redirect := "/auth/login" }
      else
        match call with
        | .ok result =>
          { session := { sess with
              token := result.token,
              email := some email,
              tempEmail := none },
            redirect := "/tasks" }
        | .error err =>
          let errorMessage :=
            if err.statusCode == some 429 then
              "Too many attempts. Please try again later."
            else if err.statusCode == some 401 then
              "Invalid password. Please try again."
            else
              jsOrStr err.errMessage "An error occurred. Please try again."
          { session := { sess with errors := some [{ text := errorMessage, href := "#password" }] },
            redirect := "/auth/password" }

/-- Observable effect of `GET /auth/logout`: whether the remote
invalidation was attempted, the message of a swallowed remote failure (the
catch only logs it), whether the local session was destroyed, the
response, and what (if anything) escaped the handler. -/
structure LogoutOutcome where
  remoteAttempted : Bool
  remoteFailureLogged : Option String
  sessionDestroyed : Bool
  redirect : String
  threw : Option Thrown
deriving DecidableEq, Repr

/-- `GET /auth/logout`: when `session?.token` is truthy the remote logout
is awaited inside try/catch — a rejection is logged and swallowed; with a
falsy token the call is skipped.  Either way `session.destroy` runs and
the destroy callback redirects to `/auth/login`, even when destruction
itself reports an error (`destroyErr`). -/
def getLogout (sess : Session) (remote : Except Thrown LogoutResult)
    (_destroyErr : Option String) : LogoutOutcome :=
  if sess.tokenTruthy then
    match remote with
    | .ok _ =>
      { remoteAttempted := true, remoteFailureLogged := none,
        sessionDestroyed := true, redirect := "/auth/login", threw := none }
    | .error e =>
      { remoteAttempted := true, remoteFailureLogged := some e.errMessage,
        sessionDestroyed := true, redirect := "/auth/login", threw := none }
  else
    { remoteAttempted := false, remoteFailureLogged := none,
      sessionDestroyed := true, redirect := "/auth/login", threw := none }

/-! ## Lemmas about the sanitizer passes -/

theorem length_dropWhile_le' (p : Char → Bool) (l : List Char) :
    (l.dropWhile p).length ≤ l.length := by
  induction l with
  | nil => simp
  | cons c cs ih =>
    rw [List.dropWhile_cons]
    by_cases h : p c
    · simp only [h, if_pos]
      exact Nat.le_trans ih (Nat.le_succ _)
    · simp [h]

theorem dropWhile_dropWhile (p : Char → Bool) (l : List Char) :
    List.dropWhile p (List.dropWhile p l) = List.dropWhile p l := by
  induction l with
  | nil => simp
  | cons c cs ih =>
    rw [List.dropWhile_cons]
    by_cases h : p c
    · simpa [h] using ih
    · simp [List.dropWhile_cons, h]

theorem trimLeft_eq_self_of_prefix_of_eq {m p : List Char}
    (hm : trimLeftChars m = m) (hp : p <+: m) : trimLeftChars p = p := by
  cases p with
  | nil => simp [trimLeftChars]
  | cons c ps =>
    obtain ⟨t, ht⟩ := hp
    have hc : Char.isWhitespace c = false := by
      by_contra hws
      have hws' : Char.isWhitespace c = true := by
        cases hcc : Char.isWhitespace c
        · exact absurd hcc hws
        · rfl
      have : trimLeftChars m = List.dropWhile Char.isWhitespace (ps ++ t) := by
        rw [← ht]
        simp [trimLeftChars, List.dropWhile_cons, hws']
      rw [hm, ← ht] at this
      have h1 : ((c :: ps) ++ t).length ≤ (ps ++ t).length := by
        rw [this]
        exact length_dropWhile_le' Char.isWhitespace (ps ++ t)
      simp [List.length_append, List.length_cons] at h1
    simp [trimLeftChars, List.dropWhile_cons, hc]

theorem trimRight_isPrefix_self (m : List Char) : trimRightChars m <+: m := by
  have h := List.dropWhile_suffix (l := m.reverse) Char.isWhitespace
  have h2 : (m.reverse.dropWhile Char.isWhitespace).reverse <+: m.reverse.reverse :=
    List.reverse_prefix.mpr h
  simpa [trimRightChars] using h2

theorem trimLeft_isSuffix_self (m : List Char) : trimLeftChars m <:+ m :=
  List.dropWhile_suffix Char.isWhitespace

theorem trimLeft_idem (m : List Char) : trimLeftChars (trimLeftChars m) = trimLeftChars m :=
  dropWhile_dropWhile Char.isWhitespace m

theorem trimRight_idem (m : List Char) : trimRightChars (trimRightChars m) = trimRightChars m := by
  simp [trimRightChars, dropWhile_dropWhile]

theorem trimChars_idem (s : List Char) : trimChars (trimChars s) = trimChars s := by
  unfold trimChars
  have h1 : trimLeftChars (trimLeftChars s) = trimLeftChars s := trimLeft_idem s
  have h2 : trimLeftChars (trimRightChars (trimLeftChars s)) = trimRightChars (trimLeftChars s) :=
    trimLeft_eq_self_of_prefix_of_eq h1 (trimRight_isPrefix_self (trimLeftChars s))
  rw [h2, trimRight_idem]

theorem removeAngles_eq_self {t : List Char} (h : hasAngle t = false) :
    removeAngles t = t := by
  rw [removeAngles, List.filter_eq_self]
  intro a ha
  simp only [hasAngle, List.any_eq_true, not_exists] at h
  by_contra hcon
  simp only [Bool.not_eq_true, Bool.not_eq_false] at hcon
  have : ∃ c ∈ t, (c == '<' || c == '>') = true := ⟨a, ha, by
    revert hcon
    cases h1 : (a == '<') <;> cases h2 : (a == '>') <;> simp_all⟩
  rw [← List.any_eq_true] at this
  rw [h] at this
  exact Bool.false_ne_true this

theorem removeCIAux_eq_self {pat : List Char} :
    ∀ (n : Nat) (t : List Char), t.length ≤ n → containsCI t pat = false →
      removeCIAux pat n t = t := by
  intro n
  induction n with
  | zero => intro t _ _; rfl
  | succ n ih =>
    intro t hlen hcon
    cases t with
    | nil => rfl
    | cons c cs =>
      have hsplit : (startsWithCI (c :: cs) pat || containsCI cs pat) = false := hcon
      have h1 : startsWithCI (c :: cs) pat = false := by
        cases hh : startsWithCI (c :: cs) pat
        · rfl
        · rw [hh] at hsplit; simp at hsplit
      have h2 : containsCI cs pat = false := by
        cases hh : containsCI cs pat
        · rfl
        · rw [hh] at hsplit; simp at hsplit
      simp only [removeCIAux, h1, Bool.false_eq_true, if_false]
      rw [ih cs (by simpa using Nat.le_of_succ_le_succ hlen) h2]

theorem removeCI_eq_self {pat t : List Char} (h : containsCI t pat = false) :
    removeCI pat t = t :=
  removeCIAux_eq_self t.length t (Nat.le_refl _) h

theorem removeOnAux_eq_self :
    ∀ (n : Nat) (t : List Char), t.length ≤ n → hasOnMatch t = false →
      removeOnAux n t = t := by
  intro n
  induction n with
  | zero => intro t _ _; rfl
  | succ n ih =>
    intro t hlen hcon
    cases t with
    | nil => rfl
    | cons c cs =>
      have hsplit : ((onMatchLen (c :: cs)).isSome || hasOnMatch cs) = false := hcon
      have h1 : onMatchLen (c :: cs) = none := by
        cases hh : onMatchLen (c :: cs)
        · rfl
        · rw [hh] at hsplit; simp at hsplit
      have h2 : hasOnMatch cs = false := by
        cases hh : hasOnMatch cs
        · rfl
        · rw [hh] at hsplit; simp at hsplit
      simp only [removeOnAux, h1]
      rw [ih cs (by simpa using Nat.le_of_succ_le_succ hlen) h2]

theorem removeOn_eq_self {t : List Char} (h : hasOnMatch t = false) :
    removeOn t = t :=
  removeOnAux_eq_self t.length t (Nat.le_refl _) h

theorem startsWithCI_nil (v : List Char) : startsWithCI v [] = true := by
  cases v <;> rfl

theorem startsWithCI_extend {pat v u : List Char} (hvu : v <+: u)
    (h : startsWithCI v pat = true) : startsWithCI u pat = true := by
  induction pat generalizing v u with
  | nil => exact startsWithCI_nil u
  | cons p ps ih =>
    cases v with
    | nil => exact absurd h (by simp [startsWithCI])
    | cons c cs =>
      obtain ⟨t, ht⟩ := hvu
      cases u with
      | nil => exact absurd (congrArg List.length ht) (by simp)
      | cons d ds =>
        have hcd : c = d := by
          have := congrArg (fun l => l.head?) ht
          simpa using this
        have htail : cs ++ t = ds := by
          have := congrArg List.tail ht
          simpa using this
        have hsw : (charEqCI c p && startsWithCI cs ps) = true := h
        have hch : charEqCI c p = true := by
          cases hh : charEqCI c p
          · rw [hh] at hsw; simp at hsw
          · rfl
        have hrest : startsWithCI cs ps = true := by
          cases hh : startsWithCI cs ps
          · rw [hh] at hsw; simp at hsw
          · rfl
        have : startsWithCI ds ps = true := ih ⟨t, htail⟩ hrest
        show (charEqCI d p && startsWithCI ds ps) = true
        rw [← hcd, hch, this]
        rfl

theorem containsCI_extendR {pat v u : List Char} (hvu : v <+: u)
    (h : containsCI v pat = true) : containsCI u pat = true := by
  induction v generalizing u with
  | nil =>
    have hp : pat.isEmpty = true := h
    cases u with
    | nil => exact hp
    | cons d ds =>
      have : startsWithCI (d :: ds) pat = true := by
        cases pat with
        | nil => rfl
        | cons p ps => simp [List.isEmpty] at hp
      show (startsWithCI (d :: ds) pat || containsCI ds pat) = true
      rw [this]
      rfl
  | cons c cs ih =>
    obtain ⟨t, ht⟩ := hvu
    cases u with
    | nil => exact absurd (congrArg List.length ht) (by simp)
    | cons d ds =>
      have hcd : c = d := by
        have := congrArg (fun l => l.head?) ht
        simpa using this
      have htail : cs ++ t = ds := by
        have := congrArg List.tail ht
        simpa using this
      have hsplit : (startsWithCI (c :: cs) pat || containsCI cs pat) = true := h
      show (startsWithCI (d :: ds) pat || containsCI ds pat) = true
      cases hh : startsWithCI (c :: cs) pat with
      | true =>
        have : startsWithCI (d :: ds) pat = true := by
          refine startsWithCI_extend ?_ hh
          exact ⟨t, by rw [List.cons_append, htail, hcd]⟩
        rw [this]; rfl
      | false =>
        rw [hh] at hsplit
        simp only [Bool.false_or] at hsplit
        have : containsCI ds pat = true := ih ⟨t, htail⟩ hsplit
        rw [this]
        simp

theorem containsCI_extendL {pat v u : List Char} (hvu : v <:+ u)
    (h : containsCI v pat = true) : containsCI u pat = true := by
  obtain ⟨w, hw⟩ := hvu
  induction w generalizing u with
  | nil => simpa [← hw] using h
  | cons d ws ih =>
    cases u with
    | nil => exact absurd (congrArg List.length hw) (by simp)
    | cons e es =>
      have htail : ws ++ v = es := by
        have := congrArg List.tail hw
        simpa using this
      have : containsCI es pat = true := ih htail
      show (startsWithCI (e :: es) pat || containsCI es pat) = true
      rw [this]
      simp

theorem containsCI_of_trimChars {pat u : List Char}
    (h : containsCI (trimChars u) pat = true) : containsCI u pat = true := by
  have h1 : containsCI (trimLeftChars u) pat = true :=
    containsCI_extendR (trimRight_isPrefix_self (trimLeftChars u)) h
  exact containsCI_extendL (trimLeft_isSuffix_self u) h1

/-! ## Claim C3: the `javascript:` removal guarantee -/

/-- Claim C3, counterexample: the input `"javajavascript:script:"` contains
`javascript:` and `sanitizeInput` maps it to exactly `"javascript:"` —
deleting the inner occurrence concatenates the surrounding fragments into
a fresh occurrence, so the output still contains the substring. -/
theorem sanitizeInput_javascript_reappears :
    containsCI ("javajavascript:script:".data) jsPat = true
    ∧ sanitizeInput "javajavascript:script:" = "javascript:"
    ∧ containsCI ((sanitizeInput "javajavascript:script:").data) jsPat = true := by
  refine ⟨by decide, by decide, by decide⟩

/-- Claim C3 as amended: for an input containing `javascript:` in any casing,
the output of `sanitizeInput` does not contain that substring, provided
the deletions of the single pass did not newly concatenate such a
substring (every occurrence the scan reaches is removed, so an occurrence
surviving to the pre-trim stage is exactly such a byproduct). -/
theorem sanitizeInput_removes_javascript (s : String)
    (_hin : containsCI s.data jsPat = true)
    (hnobyproduct : containsCI (removeOn (removeCI jsPat (removeAngles s.data))) jsPat = false) :
    containsCI ((sanitizeInput s).data) jsPat = false := by
  have hdata : (sanitizeInput s).data = sanitizeChars s.data := rfl
  rw [hdata, sanitizeChars]
  cases hc : containsCI (trimChars (removeOn (removeCI jsPat (removeAngles s.data)))) jsPat
  · rfl
  · exact absurd (containsCI_of_trimChars hc) (by rw [hnobyproduct]; exact fun hcc => Bool.false_ne_true hcc)

/-- Witness for `sanitizeInput_removes_javascript` at the concrete input
`"xjavascript:y"`, which sanitizes to `"xy"`. -/
theorem sanitizeInput_removes_javascript_witness :
    containsCI ("xjavascript:y".data) jsPat = true
    ∧ containsCI (removeOn (removeCI jsPat (removeAngles ("xjavascript:y".data)))) jsPat = false
    ∧ containsCI ((sanitizeInput "xjavascript:y").data) jsPat = false :=
  ⟨by decide, by decide, sanitizeInput_removes_javascript "xjavascript:y" (by decide) (by decide)⟩

/-! ## Claim C8: idempotence of the sanitizer -/

/-- Claim C8: `sanitizeInput` is idempotent on every input for which the single
pass does not newly produce a deleted pattern — an angle bracket, a
`javascript:` substring, or an `on<word>=` match — as a byproduct of its
deletions (each pass removes every occurrence its scan reaches, so a
pattern present in the output is exactly such a byproduct). -/
theorem sanitizeInput_idempotent (s : String)
    (hangle : hasAngle ((sanitizeInput s).data) = false)
    (hjs : containsCI ((sanitizeInput s).data) jsPat = false)
    (hon : hasOnMatch ((sanitizeInput s).data) = false) :
    sanitizeInput (sanitizeInput s) = sanitizeInput s := by
  have hdata : (sanitizeInput s).data = sanitizeChars s.data := rfl
  show (⟨sanitizeChars ((sanitizeInput s).data)⟩ : String) = sanitizeInput s
  have hfix : sanitizeChars ((sanitizeInput s).data) = (sanitizeInput s).data := by
    rw [sanitizeChars, removeAngles_eq_self hangle, removeCI_eq_self hjs,
      removeOn_eq_self hon, hdata, sanitizeChars, trimChars_idem]
  rw [hfix]

/-- Witness for `sanitizeInput_idempotent` at `" <b>ok</b> "`, which
sanitizes to `"bok/b"` and is pattern-free. -/
theorem sanitizeInput_idempotent_witness :
    hasAngle ((sanitizeInput " <b>ok</b> ").data) = false
    ∧ containsCI ((sanitizeInput " <b>ok</b> ").data) jsPat = false
    ∧ hasOnMatch ((sanitizeInput " <b>ok</b> ").data) = false
    ∧ sanitizeInput (sanitizeInput " <b>ok</b> ") = sanitizeInput " <b>ok</b> " :=
  ⟨by decide, by decide, by decide,
    sanitizeInput_idempotent " <b>ok</b> " (by decide) (by decide) (by decide)⟩

/-! ## Claim C2: the request classifier on the specified inputs -/

/-- Claim C2, counterexample: for the query `{q: "<script>alert(1)</script>"}`
(path `/tasks`, empty body) the classifier reports the SQL-indicator
pattern, not the XSS pattern — the SQL alternation contains `script` and
is tested before the XSS pattern, and the first match wins. -/
theorem classifyRequest_xss_query_reports_sql :
    classifyRequest ("/tasks".data) xssQueryJson emptyObjJson ≠ some SuspicionPattern.xss
    ∧ classifyRequest ("/tasks".data) xssQueryJson emptyObjJson = some SuspicionPattern.sql := by
  refine ⟨by decide, by decide⟩

/-- Claim C2 as amended: path `"/files/../../etc/passwd"` is flagged with the
path-traversal pattern; body `{username: "admin'; DROP TABLE users; --"}`
is flagged with the SQL-indicator pattern; query
`{q: "<script>alert(1)</script>"}` is flagged suspicious but with the
SQL-indicator pattern (whose alternation contains `script` and is tested
first), not the XSS pattern; and path `/tasks` with empty query and body
`{title: "Buy milk"}` is not flagged. -/
theorem classifyRequest_on_claim_inputs :
    classifyRequest ("/files/../../etc/passwd".data) emptyObjJson emptyObjJson
      = some SuspicionPattern.traversal
    ∧ classifyRequest ("/tasks".data) emptyObjJson sqlInjBodyJson = some SuspicionPattern.sql
    ∧ classifyRequest ("/tasks".data) xssQueryJson emptyObjJson = some SuspicionPattern.sql
    ∧ classifyRequest ("/tasks".data) emptyObjJson milkBodyJson = none := by
  refine ⟨by decide, by decide, by decide, by decide⟩

/-! ## Claim C1: `POST /auth/validate-email` with a backend `{valid: true}`

The handler branches on `result.success && result.emailValidated`, but the
backend response declared by `ValidateEmailResponse` (and asserted by the
service's tests and the repository's README flow) carries `valid` and
`message` only.  Evaluating the handler at the claim's input shows it
takes the error branch: no `tempEmail`, redirect back to `/auth/login`.
-/

/-- Claim C1, evaluation at the failing input: an unauthenticated session, body
email `user@example.com`, backend resolving `{valid: true}` (no `success`
or `emailValidated` field exists on that response).  The handler leaves
`tempEmail` unset, attaches the fallback error to `#email`, and redirects
to `/auth/login` — not the claimed `tempEmail` assignment and
`/auth/password` redirect. -/
theorem postValidateEmail_valid_true_takes_error_branch :
    postValidateEmail emptySession "user@example.com"
        (.ok { valid := some true, message := none, success := none, emailValidated := none })
      = { session := { emptySession with
            errors := some [{ text := "Invalid email address", href := "#email" }] },
          redirect := "/auth/login" }
    ∧ (postValidateEmail emptySession "user@example.com"
        (.ok { valid := some true, message := none, success := none, emailValidated := none })).session.tempEmail
      = none := by
  refine ⟨by decide, by decide⟩

/-! ## Claims C4 and C5: `POST /auth/authenticate` -/

/-- Claim C4: on an email-pending session (`tempEmail` set and truthy, `token`
unset), a backend failure with status 401 attaches exactly the
invalid-password text anchored at `#password` and redirects back to
`/auth/password` with `token` still unset; with status 429 the attached
text is the rate-limit message instead. -/
theorem postAuthenticate_401_and_429 (sess : Session) (e m : String)
    (ra : Option String)
    (htok : sess.token = none) (hte : sess.tempEmail = some e) (hne : e ≠ "") :
    postAuthenticate sess (.error (.authError m 401 ra))
      = { session := sess.withError "Invalid password. Please try again." "#password",
          redirect := "/auth/password" }
    ∧ (postAuthenticate sess (.error (.authError m 401 ra))).session.token = none
    ∧ postAuthenticate sess (.error (.authError m 429 ra))
      = { session := sess.withError "Too many attempts. Please try again later." "#password",
          redirect := "/auth/password" } := by
  have hne' : (e == "") = false := by
    cases hq : e == ""
    · rfl
    · exact absurd (by simpa using hq) hne
  refine ⟨?_, ?_, ?_⟩ <;>
    simp [postAuthenticate, Session.tokenTruthy, Session.withError, optTruthy, htok, hte, hne',
      Thrown.statusCode, Thrown.errMessage]

/-- Witness for `postAuthenticate_401_and_429` on a concrete pending
session. -/
theorem postAuthenticate_401_and_429_witness :
    (let sess : Session :=
      { token := none, email := none, tempEmail := some "user@example.com", errors := none };
    postAuthenticate sess (.error (.authError "Unauthorized" 401 none))
      = { session := sess.withError "Invalid password. Please try again." "#password",
          redirect := "/auth/password" }
    ∧ (postAuthenticate sess (.error (.authError "Unauthorized" 401 none))).session.token = none
    ∧ postAuthenticate sess (.error (.authError "Unauthorized" 429 none))
      = { session := sess.withError "Too many attempts. Please try again later." "#password",
          redirect := "/auth/password" }) :=
  postAuthenticate_401_and_429 _ "user@example.com" "Unauthorized" none rfl rfl (by decide)

/-- Claim C5: on a session with a truthy `tempEmail` and no token, a resolved
authenticate call stores the returned token, stores the validated email,
deletes `tempEmail`, and redirects to `/tasks` — after the transition the
session carries the token and no `tempEmail`, so the authenticated and
email-pending discriminants are not simultaneously present. -/
theorem postAuthenticate_success_transition (sess : Session) (e tok : String)
    (msg : Option String)
    (htok : sess.token = none) (hte : sess.tempEmail = some e) (hne : e ≠ "") :
    postAuthenticate sess (.ok { token := some tok, message := msg })
      = { session := { sess with token := some tok, email := some e, tempEmail := none },
          redirect := "/tasks" }
    ∧ (postAuthenticate sess (.ok { token := some tok, message := msg })).session.token = some tok
    ∧ (postAuthenticate sess (.ok { token := some tok, message := msg })).session.tempEmail = none
    ∧ (postAuthenticate sess (.ok { token := some tok, message := msg })).session.email = some e := by
  have hne' : (e == "") = false := by
    cases hq : e == ""
    · rfl
    · exact absurd (by simpa using hq) hne
  refine ⟨?_, ?_, ?_, ?_⟩ <;>
    simp [postAuthenticate, Session.tokenTruthy, optTruthy, htok, hte, hne']

/-- Witness for `postAuthenticate_success_transition` on a concrete
pending session and token. -/
theorem postAuthenticate_success_transition_witness :
    (let sess : Session :=
      { token := none, email := none, tempEmail := some "user@example.com", errors := none };
    postAuthenticate sess (.ok { token := some "abc", message := none })
      = { session := { sess with token := some "abc", email := some "user@example.com", tempEmail := none },
          redirect := "/tasks" }
    ∧ (postAuthenticate sess (.ok { token := some "abc", message := none })).session.token
        = some "abc"
    ∧ (postAuthenticate sess (.ok { token := some "abc", message := none })).session.tempEmail
        = none
    ∧ (postAuthenticate sess (.ok { token := some "abc", message := none })).session.email
        = some "user@example.com") :=
  postAuthenticate_success_transition _ "user@example.com" "abc" none rfl rfl (by decide)

/-! ## Claim C6: `GET /auth/logout` -/

/-- Claim C6: for every session state, remote outcome, and destroy-callback
error, logout destroys the session and redirects to `/auth/login`, lets
nothing escape the handler, attempts the remote invalidation exactly when
the session token is truthy, and when the attempted remote call failed the
failure is only logged (its message is recorded, the cleanup still
happens). -/
theorem getLogout_always_cleans_up (sess : Session)
    (remote : Except Thrown LogoutResult) (derr : Option String) :
    (getLogout sess remote derr).sessionDestroyed = true
    ∧ (getLogout sess remote derr).redirect = "/auth/login"
    ∧ (getLogout sess remote derr).threw = none
    ∧ (getLogout sess remote derr).remoteAttempted = sess.tokenTruthy
    ∧ (∀ e, remote = .error e → sess.tokenTruthy = true →
        (getLogout sess remote derr).remoteFailureLogged = some e.errMessage) := by
  cases htok : sess.tokenTruthy <;> cases remote <;>
    simp [getLogout, htok]

/-- Witness for `getLogout_always_cleans_up`: an authenticated session
whose remote logout call rejects. -/
theorem getLogout_always_cleans_up_witness :
    (let sess : Session :=
      { token := some "jwt", email := some "user@example.com", tempEmail := none, errors := none };
    let remote : Except Thrown LogoutResult := .error (.plainError "backend down");
    (getLogout sess remote none).sessionDestroyed = true
    ∧ (getLogout sess remote none).redirect = "/auth/login"
    ∧ (getLogout sess remote none).threw = none
    ∧ (getLogout sess remote none).remoteAttempted = sess.tokenTruthy
    ∧ (getLogout sess remote none).remoteFailureLogged = some "backend down") := by
  refine ⟨?_, ?_, ?_, ?_, ?_⟩
  · exact (getLogout_always_cleans_up _ _ _).1
  · exact (getLogout_always_cleans_up _ _ _).2.1
  · exact (getLogout_always_cleans_up _ _ _).2.2.1
  · exact (getLogout_always_cleans_up _ _ _).2.2.2.1
  · exact (getLogout_always_cleans_up _ _ _).2.2.2.2 (.plainError "backend down") rfl (by decide)

/-! ## Claim C7: error classification of the `AuthenticationService` -/

/-- Claim C7: for each of the three service operations (`validateEmail`,
`authenticate`, `logout`), a rejection carrying an error response becomes
an `AuthenticationError` with the body's `message` (or `error`) field, the
response status as `statusCode`, and the `retry-after` header as
`retryAfter`; a rejection with a request but no response becomes the
distinct network-unreachable plain error carrying no status code; any
other error propagates unchanged; and an empty or whitespace-only required
argument (either argument of `authenticate`) rejects locally with the
network call never made. -/
theorem service_error_classification :
    (∀ (email : String) (e : AxiosLikeError) (st : Nat),
      blankArg email = false →
      e.responseStatus = some st →
      svcValidateEmail email (.rejected e)
        = (true, .error (.authError (jsOrOpt e.dataMessage (jsOrOpt e.dataError "An error occurred")) st e.retryAfter)))
    ∧ (∀ (email password : String) (e : AxiosLikeError) (st : Nat),
      blankArg email = false →
      blankArg password = false →
      e.responseStatus = some st →
      svcAuthenticate email password (.rejected e)
        = (true, .error (.authError (jsOrOpt e.dataMessage (jsOrOpt e.dataError "An error occurred")) st e.retryAfter)))
    ∧ (∀ (token : String) (e : AxiosLikeError) (st : Nat),
      blankArg token = false →
      e.responseStatus = some st →
      svcLogout token (.rejected e)
        = (true, .error (.authError (jsOrOpt e.dataMessage (jsOrOpt e.dataError "An error occurred")) st e.retryAfter)))
    ∧ (∀ (email : String) (e : AxiosLikeError),
      blankArg email = false →
      e.responseStatus = none → e.requestMade = true →
      svcValidateEmail email (.rejected e)
        = (true, .error (.plainError "Network error: Unable to reach authentication server")))
    ∧ (∀ (email password : String) (e : AxiosLikeError),
      blankArg email = false →
      blankArg password = false →
      e.responseStatus = none → e.requestMade = true →
      svcAuthenticate email password (.rejected e)
        = (true, .error (.plainError "Network error: Unable to reach authentication server")))
    ∧ (∀ (token : String) (e : AxiosLikeError),
      blankArg token = false →
      e.responseStatus = none → e.requestMade = true →
      svcLogout token (.rejected e)
        = (true, .error (.plainError "Network error: Unable to reach authentication server")))
    ∧ (∀ (email : String) (e : AxiosLikeError),
      blankArg email = false →
      e.responseStatus = none → e.requestMade = false →
      svcValidateEmail email (.rejected e) = (true, .error (.original e)))
    ∧ (∀ (email password : String) (e : AxiosLikeError),
      blankArg email = false →
      blankArg password = false →
      e.responseStatus = none → e.requestMade = false →
      svcAuthenticate email password (.rejected e) = (true, .error (.original e)))
    ∧ (∀ (token : String) (e : AxiosLikeError),
      blankArg token = false →
      e.responseStatus = none → e.requestMade = false →
      svcLogout token (.rejected e) = (true, .error (.original e)))
    ∧ (∀ (email : String) (net : NetOutcome ValidateEmailResult),
      blankArg email = true →
      svcValidateEmail email net = (false, .error (.plainError "Email is required")))
    ∧ (∀ (email password : String) (net : NetOutcome AuthenticateResult),
      blankArg email = true →
      svcAuthenticate email password net = (false, .error (.plainError "Email is required")))
    ∧ (∀ (email password : String) (net : NetOutcome AuthenticateResult),
      blankArg email = false →
      blankArg password = true →
      svcAuthenticate email password net = (false, .error (.plainError "Password is required")))
    ∧ (∀ (token : String) (net : NetOutcome LogoutResult),
      blankArg token = true →
      svcLogout token net = (false, .error (.plainError "Token is required"))) := by
  refine ⟨?_, ?_, ?_, ?_, ?_, ?_, ?_, ?_, ?_, ?_, ?_, ?_, ?_⟩
  · intro email e st hem hr
    simp [svcValidateEmail, hem, handleError, hr]
  · intro email password e st hem hpw hr
    simp [svcAuthenticate, hem, hpw, handleError, hr]
  · intro token e st htk hr
    simp [svcLogout, htk, handleError, hr]
  · intro email e hem hr hq
    simp [svcValidateEmail, hem, handleError, hr, hq]
  · intro email password e hem hpw hr hq
    simp [svcAuthenticate, hem, hpw, handleError, hr, hq]
  · intro token e htk hr hq
    simp [svcLogout, htk, handleError, hr, hq]
  · intro email e hem hr hq
    simp [svcValidateEmail, hem, handleError, hr, hq]
  · intro email password e hem hpw hr hq
    simp [svcAuthenticate, hem, hpw, handleError, hr, hq]
  · intro token e htk hr hq
    simp [svcLogout, htk, handleError, hr, hq]
  · intro email net hem
    simp [svcValidateEmail, hem]
  · intro email password net hem
    simp [svcAuthenticate, hem]
  · intro email password net hem hpw
    simp [svcAuthenticate, hem, hpw]
  · intro token net htk
    simp [svcLogout, htk]

/-- Witness for `service_error_classification` at concrete inputs,
exercising every conjunct: a 429 response with a `retry-after` header and
a 401 response whose body only has an `error` field (all three
operations), a response-less rejection with a request made (all three), a
local programming error (all three), a whitespace-only email (including a
form-feed-only one, whitespace under JavaScript trimming), an empty
password, and an empty token. -/
theorem service_error_classification_witness :
    (let e429 : AxiosLikeError :=
      { responseStatus := some 429, dataMessage := some "Rate limit exceeded. Please try again later.",
        dataError := none, retryAfter := some "900", requestMade := true, message := "Request failed" };
    let e401 : AxiosLikeError :=
      { responseStatus := some 401, dataMessage := none, dataError := some "Invalid token",
        retryAfter := none, requestMade := true, message := "Request failed" };
    let eNet : AxiosLikeError :=
      { responseStatus := none, dataMessage := none, dataError := none,
        retryAfter := none, requestMade := true, message := "socket hang up" };
    let eLocal : AxiosLikeError :=
      { responseStatus := none, dataMessage := none, dataError := none,
        retryAfter := none, requestMade := false, message := "Cannot read properties of undefined" };
    svcValidateEmail "user@example.com" (.rejected e429)
      = (true, .error (.authError "Rate limit exceeded. Please try again later." 429 (some "900")))
    ∧ svcAuthenticate "user@example.com" "hunter2" (.rejected e429)
      = (true, .error (.authError "Rate limit exceeded. Please try again later." 429 (some "900")))
    ∧ svcLogout "jwt" (.rejected e401)
      = (true, .error (.authError "Invalid token" 401 none))
    ∧ svcValidateEmail "user@example.com" (.rejected eNet)
      = (true, .error (.plainError "Network error: Unable to reach authentication server"))
    ∧ svcAuthenticate "user@example.com" "hunter2" (.rejected eNet)
      = (true, .error (.plainError "Network error: Unable to reach authentication server"))
    ∧ svcLogout "jwt" (.rejected eNet)
      = (true, .error (.plainError "Network error: Unable to reach authentication server"))
    ∧ svcValidateEmail "user@example.com" (.rejected eLocal)
      = (true, .error (.original eLocal))
    ∧ svcAuthenticate "user@example.com" "hunter2" (.rejected eLocal)
      = (true, .error (.original eLocal))
    ∧ svcLogout "jwt" (.rejected eLocal)
      = (true, .error (.original eLocal))
    ∧ svcValidateEmail "   " (.rejected eNet)
      = (false, .error (.plainError "Email is required"))
    ∧ svcAuthenticate "\x0C" "hunter2" (.rejected eNet)
      = (false, .error (.plainError "Email is required"))
    ∧ svcAuthenticate "user@example.com" "" (.rejected eNet)
      = (false, .error (.plainError "Password is required"))
    ∧ svcLogout "" (.rejected eNet)
      = (false, .error (.plainError "Token is required"))) := by
  refine ⟨?_, ?_, ?_, ?_, ?_, ?_, ?_, ?_, ?_, ?_, ?_, ?_, ?_⟩
  · exact service_error_classification.1 "user@example.com" _ 429 (by decide) rfl
  · exact service_error_classification.2.1 "user@example.com" "hunter2" _ 429 (by decide) (by decide) rfl
  · exact service_error_classification.2.2.1 "jwt" _ 401 (by decide) rfl
  · exact service_error_classification.2.2.2.1 "user@example.com" _ (by decide) rfl rfl
  · exact service_error_classification.2.2.2.2.1 "user@example.com" "hunter2" _ (by decide) (by decide) rfl rfl
  · exact service_error_classification.2.2.2.2.2.1 "jwt" _ (by decide) rfl rfl
  · exact service_error_classification.2.2.2.2.2.2.1 "user@example.com" _ (by decide) rfl rfl
  · exact service_error_classification.2.2.2.2.2.2.2.1 "user@example.com" "hunter2" _ (by decide) (by decide) rfl rfl
  · exact service_error_classification.2.2.2.2.2.2.2.2.1 "jwt" _ (by decide) rfl rfl
  · exact service_error_classification.2.2.2.2.2.2.2.2.2.1 "   " _ (by decide)
  · exact service_error_classification.2.2.2.2.2.2.2.2.2.2.1 "\x0C" "hunter2" _ (by decide)
  · exact service_error_classification.2.2.2.2.2.2.2.2.2.2.2.1 "user@example.com" "" _ (by decide) (by decide)
  · exact service_error_classification.2.2.2.2.2.2.2.2.2.2.2.2 "" _ (by decide)

/-! ## Claim C9: `clearAuth` removes exactly `token` and `email` -/

/-- Claim C9: `clearAuth` leaves no `token` and no `email` binding, and every
other key keeps its prior value. -/
theorem clearAuth_exact {V : Type} (m : List (String × V)) :
    (clearAuth m).lookup "token" = none
    ∧ (clearAuth m).lookup "email" = none
    ∧ ∀ k : String, k ≠ "token" → k ≠ "email" →
        (clearAuth m).lookup k = m.lookup k := by
  induction m with
  | nil => exact ⟨rfl, rfl, fun k _ _ => rfl⟩
  | cons kv rest ih =>
    obtain ⟨a, b⟩ := kv
    by_cases ha : a = "token" ∨ a = "email"
    · have hdrop : clearAuth ((a, b) :: rest) = clearAuth rest := by
        rcases ha with h | h <;> simp [clearAuth, h]
      refine ⟨by rw [hdrop]; exact ih.1, by rw [hdrop]; exact ih.2.1, ?_⟩
      intro k hk1 hk2
      have hka : (k == a) = false := by
        rcases ha with h | h
        · subst h
          cases hq : k == "token"
          · rfl
          · exact absurd (by simpa using hq) hk1
        · subst h
          cases hq : k == "email"
          · rfl
          · exact absurd (by simpa using hq) hk2
      rw [hdrop, ih.2.2 k hk1 hk2]
      simp [List.lookup, hka]
    · push_neg at ha
      obtain ⟨ha1, ha2⟩ := ha
      have ha1' : (a == "token") = false := by
        cases hq : a == "token"
        · rfl
        · exact absurd (by simpa using hq) ha1
      have ha2' : (a == "email") = false := by
        cases hq : a == "email"
        · rfl
        · exact absurd (by simpa using hq) ha2
      have hkeep : clearAuth ((a, b) :: rest) = (a, b) :: clearAuth rest := by
        simp [clearAuth, ha1', ha2']
      have htok : ("token" == a) = false := by
        cases hq : "token" == a
        · rfl
        · have h : "token" = a := by simpa using hq
          exact absurd h.symm ha1
      have hem : ("email" == a) = false := by
        cases hq : "email" == a
        · rfl
        · have h : "email" = a := by simpa using hq
          exact absurd h.symm ha2
      refine ⟨?_, ?_, ?_⟩
      · rw [hkeep]
        simp [List.lookup, htok, ih.1]
      · rw [hkeep]
        simp [List.lookup, hem, ih.2.1]
      · intro k hk1 hk2
        rw [hkeep]
        cases hq : k == a
        · simp [List.lookup, hq, ih.2.2 k hk1 hk2]
        · simp [List.lookup, hq]

/-- Witness for `clearAuth_exact` on a concrete session object carrying
`token`, `email`, and an unrelated `tempEmail` key. -/
theorem clearAuth_exact_witness :
    (let m : List (String × String) :=
      [("token", "jwt-token"), ("email", "test@example.com"), ("tempEmail", "temp@example.com")];
    (clearAuth m).lookup "token" = none
    ∧ (clearAuth m).lookup "email" = none
    ∧ (clearAuth m).lookup "tempEmail" = m.lookup "tempEmail") := by
  refine ⟨?_, ?_, ?_⟩
  · exact (clearAuth_exact _).1
  · exact (clearAuth_exact _).2.1
  · exact (clearAuth_exact _).2.2 "tempEmail" (by decide) (by decide)

/-! ## Claim C10: truthiness of the token is the authentication predicate -/

/-- Claim C10: a session whose `token` is the empty string, and an absent
session, are both treated as unauthenticated — `requireAuth` redirects to
`/auth/login` without passing the request on, `redirectIfAuthenticated`
passes it through — while any session with a nonempty `token` is treated
as authenticated by both guards. -/
theorem guards_use_token_truthiness :
    (∀ m : List (String × String), m.lookup "token" = some "" →
      requireAuth (some m) = .redirect "/auth/login"
      ∧ redirectIfAuthenticated (some m) = .next)
    ∧ (requireAuth none = .redirect "/auth/login"
      ∧ redirectIfAuthenticated none = .next)
    ∧ (∀ (m : List (String × String)) (t : String),
      m.lookup "token" = some t → t ≠ "" →
      requireAuth (some m) = .next
      ∧ redirectIfAuthenticated (some m) = .redirect "/tasks") := by
  refine ⟨?_, ⟨rfl, rfl⟩, ?_⟩
  · intro m hm
    constructor <;> simp [requireAuth, redirectIfAuthenticated, hm, optTruthy]
  · intro m t hm ht
    have ht' : (t == "") = false := by
      cases hq : t == ""
      · rfl
      · exact absurd (by simpa using hq) ht
    constructor <;> simp [requireAuth, redirectIfAuthenticated, hm, optTruthy, ht']

/-- Witness for `guards_use_token_truthiness`: an empty-string token and a
nonempty token. -/
theorem guards_use_token_truthiness_witness :
    (requireAuth (some [("token", "")]) = .redirect "/auth/login"
      ∧ redirectIfAuthenticated (some [("token", "")]) = .next)
    ∧ (requireAuth (some [("token", "valid-jwt-token")]) = .next
      ∧ redirectIfAuthenticated (some [("token", "valid-jwt-token")]) = .redirect "/tasks") :=
  ⟨guards_use_token_truthiness.1 [("token", "")] rfl,
    guards_use_token_truthiness.2.2 [("token", "valid-jwt-token")] "valid-jwt-token" rfl (by decide)⟩

end Hmcts
